import Mathlib

/- Shallow embedding of src/lazy_objects/lazy_objects.py.

   A Python instance `__dict__` is modelled as an ordered association list with
   unique keys (`Dict`).  `dictFind` models dictionary lookup and `dictSet`
   models `self.__dict__[k] = v` / `setattr(self, k, v)`: it overwrites an
   existing entry in place and appends a fresh key at the end, exactly the
   update semantics of a Python dict.  Exceptions are modelled as explicit
   result constructors, and the Python recursion limit is modelled by a fuel
   parameter: exhausting the fuel corresponds to RecursionError. -/

namespace LazyObjects

/-- Python values that appear in the instance dictionaries of this library:
None, ints, strings, lists of strings (the `constrained_attrs` allow-list) and
callables from an attribute name to a value (the `compute_function`). -/
inductive Value where
  | pyNone : Value
  | int : Int → Value
  | str : String → Value
  | strList : List String → Value
  | func : (String → Value) → Value

/-- An instance `__dict__`: ordered key/value pairs with unique keys. -/
abbrev Dict := List (String × Value)

/-- Python dict lookup: `d[key]` / `key in d` (first matching key). -/
def dictFind : Dict → String → Option Value
  | [], _ => none
  | (k1, v1) :: rest, key => if k1 = key then some v1 else dictFind rest key

/-- Python dict update `d[key] = v`: overwrite in place, else append. -/
def dictSet : Dict → String → Value → Dict
  | [], key, v => [(key, v)]
  | (k1, v1) :: rest, key, v =>
    if k1 = key then (key, v) :: rest else (k1, v1) :: dictSet rest key v

/-- The `fget` accessor produced by `lazy_property` for a method named `name`
with body `func`.  Source:
`private_attr = '_' + func.__name__`;
`if not hasattr(self, private_attr): setattr(self, private_attr, func(self))`;
`return getattr(self, private_attr)`.
The instance is the dictionary `d`; the result is the returned value together
with the (possibly extended) instance dictionary. -/
def lazy_property_fget (name : String) (func : Dict → Value) (d : Dict) :
    Value × Dict :=
  let private_attr := "_" ++ name
  let d1 := if (dictFind d private_attr).isSome then d
            else dictSet d private_attr (func d)
  ((dictFind d1 private_attr).getD Value.pyNone, d1)

/-- The `fset` accessor produced by `lazy_property`:
`setattr(self, private_attr, value)`. -/
def lazy_property_fset (name : String) (value : Value) (d : Dict) : Dict :=
  dictSet d ("_" ++ name) value

/-- The result of `inspect.getfullargspec` on a constructor, restricted to the
fields `lazy_init` reads: `args` (positional parameter names, `self`
included), `varargs`, `varkw`, and `defaults` (default values of the trailing
`defaults.length` entries of `args`). -/
structure ArgSpec where
  args : List String
  varargs : Option String
  varkw : Option String
  defaults : List Value

/-- Message of the decoration-time assertion in `lazy_init` (the source text
carries the same words between backquotes). -/
def assertVarargsMsg : String := "lazy_init does not handle *args"

/-- Decoration-time behaviour of `lazy_init`: the line
`assert specs.varargs is None, ...` runs once, when the constructor is
wrapped, before any call of the wrapper. -/
def lazy_init_decorate (specs : ArgSpec) : Except String Unit :=
  if specs.varargs = none then Except.ok () else Except.error assertVarargsMsg

/-- Attribute-assignment phase of the `lazy_init` wrapper: the three
setattr loops of the source, run on the instance dictionary `d0` with the call
arguments `args` (excluding `self`) and `kwargs`.  Translated line by line,
including the source offset `args[required_args_len:]` even though the runtime
`args` tuple does not contain `self` while `required_args_len` counts it. -/
def lazy_init_setattrs (specs : ArgSpec) (d0 : Dict) (args : List Value)
    (kwargs : List (String × Value)) : Dict :=
  let defaults_args_len := specs.defaults.length
  let required_args_len := specs.args.length - defaults_args_len
  let required_args_names := (specs.args.drop 1).take (required_args_len - 1)
  let defaults_args_names := specs.args.drop required_args_len
  let required_from_args := required_args_names.zip args
  let required_from_kwargs := kwargs.filter
    (fun p => required_args_names.contains p.1)
  let d1 := (required_from_args ++ required_from_kwargs).foldl
    (fun d p => dictSet d p.1 p.2) d0
  let def_from_args := defaults_args_names.zip (args.drop required_args_len)
  let def_from_kwargs := kwargs.filter
    (fun p => defaults_args_names.contains p.1)
  let d2 := (def_from_args ++ def_from_kwargs).foldl
    (fun d p => dictSet d p.1 p.2) d1
  (kwargs.filter (fun p =>
      !(required_args_names ++ defaults_args_names).contains p.1)).foldl
    (fun d p => dictSet d p.1 p.2) d2

def tooManyPositionalMsg : String :=
  "TypeError: too many positional arguments"
def multipleValuesMsg : String :=
  "TypeError: got multiple values for argument"
def unexpectedKeywordMsg : String :=
  "TypeError: got an unexpected keyword argument"
def missingRequiredMsg : String :=
  "TypeError: missing required positional argument"

/-- The delegated call `func(self, *args, **kwargs)` at the end of the
`lazy_init` wrapper.  This models the argument binding the host language
performs against the declared signature `specs` (no variable-positional
parameter: decoration rejects those): `some msg` is the TypeError raised when
binding fails, `none` means the call succeeds.  The constructor bodies in the
repository are all `pass`, so a successful call changes nothing. -/
def callOriginal (specs : ArgSpec) (args : List Value)
    (kwargs : List (String × Value)) : Option String :=
  let nPos := args.length + 1
  if specs.args.length < nPos then some tooManyPositionalMsg
  else
    let posBound := specs.args.take nPos
    if kwargs.any (fun p => posBound.contains p.1) then some multipleValuesMsg
    else if specs.varkw.isNone &&
        kwargs.any (fun p => !specs.args.contains p.1) then
      some unexpectedKeywordMsg
    else
      let required := specs.args.take (specs.args.length - specs.defaults.length)
      if required.any (fun n =>
          !posBound.contains n && !kwargs.any (fun p => p.1 = n)) then
        some missingRequiredMsg
      else none

/-- The `lazy_init` wrapper body: run the three setattr loops on the instance,
then delegate to the original constructor.  The first component is the
instance dictionary after the assignments (the instance is mutated in place,
so these survive even when the delegated call raises); the second component is
the TypeError of the delegated call, if any. -/
def lazy_init_wrapper (specs : ArgSpec) (d0 : Dict) (args : List Value)
    (kwargs : List (String × Value)) : Dict × Option String :=
  (lazy_init_setattrs specs d0 args kwargs, callOriginal specs args kwargs)

/-- Python repr of a string (single-quoted, quote written as \x27). -/
def pyReprStr (s : String) : String := "\x27" ++ s ++ "\x27"

/-- Python repr of a list of strings, as interpolated by an f-string. -/
def pyReprStrList (l : List String) : String :=
  "[" ++ String.intercalate ", " (l.map pyReprStr) ++ "]"

/-- The AttributeError message of `LazyObject.__getattr__`: the f-string
interpolates the requested attribute and the full `constrained_attrs` list. -/
def attrResolutionMsg (attrName : String) (constrained_attrs : List String) :
    String :=
  "Attribute " ++ attrName ++ " is not in the list of allowed attributes: "
    ++ pyReprStrList constrained_attrs

/-- TypeError message when `self.compute_function` is not callable. -/
def notCallableMsg : String := "TypeError: object is not callable"

/-- TypeError message of `attribute in self.constrained_attrs` when the stored
value is neither None nor a list. -/
def membershipTypeMsg : String := "TypeError: argument is not a container"

/-- Outcome of an attribute read on a `LazyObject`: the returned value with
the possibly updated instance dictionary, or the Python exception raised. -/
inductive GetResult where
  | ok : Value → Dict → GetResult
  | attrError : String → GetResult
  | typeError : String → GetResult
  | recursionError : GetResult

/-- Attribute access `obj.attribute` on a `LazyObject` whose instance
dictionary is `d`.  When the name is in `__dict__` the host returns it
directly; otherwise the host invokes `LazyObject.__getattr__`, whose body is
translated here:
if `self.constrained_attrs is None or attribute in self.constrained_attrs`
then `self.__dict__[attribute] = self.compute_function(attribute)` and the
entry is returned, else AttributeError.  The reads `self.constrained_attrs`
and `self.compute_function` are themselves attribute accesses and recurse
(the short-circuit `or` reads `self.constrained_attrs` up to twice; every
read after the first hits the same cached entry or fails identically, so a
single read is performed here).  `fuel` models the recursion limit of the
host: fuel 0 is RecursionError. -/
def getattrLazy : Nat → Dict → String → GetResult
  | 0, _, _ => .recursionError
  | fuel + 1, d, attrName =>
    match dictFind d attrName with
    | some v => .ok v d
    | none =>
      match getattrLazy fuel d "constrained_attrs" with
      | .ok ca d1 =>
        match ca with
        | .pyNone =>
          match getattrLazy fuel d1 "compute_function" with
          | .ok (.func f) d2 => .ok (f attrName) (dictSet d2 attrName (f attrName))
          | .ok _ _ => .typeError notCallableMsg
          | e => e
        | .strList l =>
          if attrName ∈ l then
            match getattrLazy fuel d1 "compute_function" with
            | .ok (.func f) d2 => .ok (f attrName) (dictSet d2 attrName (f attrName))
            | .ok _ _ => .typeError notCallableMsg
            | e => e
          else .attrError (attrResolutionMsg attrName l)
        | _ => .typeError membershipTypeMsg
      | e => e

/-- Outcome of `dir(obj)` on a `LazyObject`. -/
inductive DirResult where
  | ok : List String → DirResult
  | attrError : String → DirResult
  | typeError : String → DirResult
  | recursionError : DirResult
deriving DecidableEq

/-- TypeError message of list concatenation with a non-list. -/
def listConcatMsg : String := "TypeError: can only concatenate list to list"

/-- `LazyObject.__dir__`, translated with the actual precedence of the source
line: the conditional expression governs the whole concatenation, so the
branch for `constrained_attrs is None` yields the empty list, not the two
fixed names.  Reading `self.constrained_attrs` is an attribute access. -/
def dirLazy (fuel : Nat) (d : Dict) : DirResult :=
  match getattrLazy fuel d "constrained_attrs" with
  | .ok ca _ =>
    match ca with
    | .pyNone => .ok []
    | .strList l => .ok (["compute_function", "constrained_attrs"] ++ l)
    | _ => .typeError listConcatMsg
  | .attrError m => .attrError m
  | .typeError m => .typeError m
  | .recursionError => .recursionError

/-- Outcome of iterating a `LazyObject` to exhaustion: the (name, value)
pairs produced with the final instance dictionary, or the exception raised. -/
inductive IterResult where
  | ok : List (String × Value) → Dict → IterResult
  | attrError : String → IterResult
  | typeError : String → IterResult
  | recursionError : IterResult

/-- TypeError message of `LazyObject.__iter__` (f-string over the class
name). -/
def iterTypeErrorMsg : String :=
  "You are trying to iterate on a LazyObject but the attributes to iter upon are not defined (self.constrained_attrs is None)."

/-- The loop of `LazyObject.__iter__`:
`for attr in self.constrained_attrs: yield attr, getattr(self, attr)`.
Each `getattr` threads the (possibly growing) instance dictionary. -/
def iterLoop (fuel : Nat) : Dict → List String → IterResult
  | d, [] => .ok [] d
  | d, attr :: rest =>
    match getattrLazy fuel d attr with
    | .ok v d1 =>
      match iterLoop fuel d1 rest with
      | .ok pairs d2 => .ok ((attr, v) :: pairs) d2
      | e => e
    | .attrError m => .attrError m
    | .typeError m => .typeError m
    | .recursionError => .recursionError

/-- `LazyObject.__iter__`: TypeError when `self.constrained_attrs` is None,
else the loop over the allow-list.  The read of `self.constrained_attrs` is an
attribute access (twice in the source: once for the None test, once for the
loop; as in `getattrLazy`, the second read returns the same cached entry). -/
def iterLazy (fuel : Nat) (d : Dict) : IterResult :=
  match getattrLazy fuel d "constrained_attrs" with
  | .ok ca d1 =>
    match ca with
    | .pyNone => .typeError iterTypeErrorMsg
    | .strList l => iterLoop fuel d1 l
    | _ => .typeError membershipTypeMsg
  | .attrError m => .attrError m
  | .typeError m => .typeError m
  | .recursionError => .recursionError

/-- `getfullargspec` of `LazyObject.__init__`:
`(self, compute_function, constrained_attrs=None, **kwargs)`. -/
def lazyObjectInitSpec : ArgSpec :=
  ⟨["self", "compute_function", "constrained_attrs"], none, some "kwargs",
    [Value.pyNone]⟩

/-- The compute function of the unconstrained docstring example:
`lambda n: n + " computed"`. -/
def helloCompute : String → Value := fun n => .str (n ++ " computed")

/-- The compute function of the constrained example: `lambda x: len(x)`. -/
def lenCompute : String → Value := fun s => .int s.length

/-- Instance dictionary of `LazyObject(compute_function=helloCompute)`:
`constrained_attrs` is left at its default and is never assigned. -/
def unconstrainedDict : Dict :=
  (lazy_init_wrapper lazyObjectInitSpec [] []
    [("compute_function", .func helloCompute)]).1

/-- Instance dictionary of
`LazyObject(compute_function=lenCompute, constrained_attrs=["a", "bcd"])`. -/
def lenObjDict : Dict :=
  (lazy_init_wrapper lazyObjectInitSpec [] []
    [("compute_function", .func lenCompute),
     ("constrained_attrs", .strList ["a", "bcd"])]).1

/-- Instance dictionary of
`LazyObject(compute_function=helloCompute, constrained_attrs=None)`, the
default passed explicitly so that the attribute is actually assigned. -/
def noneCaDict : Dict :=
  (lazy_init_wrapper lazyObjectInitSpec [] []
    [("compute_function", .func helloCompute),
     ("constrained_attrs", Value.pyNone)]).1

/-- Argspec of a constructor `(self, a, b)` with no defaults. -/
def specSelfAB : ArgSpec := ⟨["self", "a", "b"], none, none, []⟩

/-- Argspec of a constructor `(self, a, b=3)`. -/
def specSelfAB3 : ArgSpec := ⟨["self", "a", "b"], none, none, [Value.int 3]⟩

/-- Argspec of the test constructor `(self, a, b=3, **kwargs)`. -/
def specTestFoo : ArgSpec :=
  ⟨["self", "a", "b"], none, some "kwargs", [Value.int 3]⟩

/- Helper lemmas (shared across the claim theorems below). -/

/-- Lookup after an update: the updated key reads the new value, every other
key is untouched. -/
lemma dictFind_dictSet (d : Dict) (key : String) (v : Value) (q : String) :
    dictFind (dictSet d key v) q = if key = q then some v else dictFind d q := by
  induction d with
  | nil =>
    by_cases h : key = q <;> simp [dictSet, dictFind, h]
  | cons hd tl ih =>
    obtain ⟨k1, v1⟩ := hd
    by_cases h1 : k1 = key
    · subst h1
      by_cases h2 : k1 = q <;> simp [dictSet, dictFind, h2]
    · by_cases h2 : k1 = q
      · have h3 : ¬ key = q := fun h => h1 (h2.trans h.symm)
        have h4 : ¬ q = key := fun h => h3 h.symm
        simp [dictSet, dictFind, h1, h2, h3, h4]
      · simp [dictSet, dictFind, h1, h2, ih]

/-- A read of a name already present in `__dict__` never reaches
`__getattr__`: it returns the cached entry and leaves the instance
unchanged. -/
lemma getattr_hit (fuel : Nat) (d : Dict) (name : String) (v : Value)
    (h : dictFind d name = some v) :
    getattrLazy (fuel + 1) d name = .ok v d := by
  simp [getattrLazy, h]

/-- When `constrained_attrs` is absent from `__dict__`, reading it recurses
through `__getattr__` until the recursion limit: RecursionError at every
fuel. -/
lemma getattr_ca_missing (fuel : Nat) (d : Dict)
    (h : dictFind d "constrained_attrs" = none) :
    getattrLazy fuel d "constrained_attrs" = .recursionError := by
  induction fuel with
  | zero => simp [getattrLazy]
  | succ k ih => simp [getattrLazy, h, ih]

/-- Reading any uncached name when `constrained_attrs` is absent ends in
RecursionError: the None test of `__getattr__` itself recurses forever. -/
lemma getattr_missing_ca_missing (fuel : Nat) (d : Dict) (name : String)
    (h1 : dictFind d name = none)
    (h2 : dictFind d "constrained_attrs" = none) :
    getattrLazy fuel d name = .recursionError := by
  cases fuel with
  | zero => simp [getattrLazy]
  | succ k => simp [getattrLazy, h1, getattr_ca_missing k d h2]

/-- Uncached read of an allowed name on a constrained `LazyObject`: the value
is computed, stored in `__dict__`, and returned. -/
lemma getattr_compute (k : Nat) (d : Dict) (name : String) (la : List String)
    (f : String → Value)
    (hmiss : dictFind d name = none)
    (hca : dictFind d "constrained_attrs" = some (.strList la))
    (hcf : dictFind d "compute_function" = some (.func f))
    (hmem : name ∈ la) :
    getattrLazy (k + 2) d name = .ok (f name) (dictSet d name (f name)) := by
  simp [getattrLazy, hmiss, hca, hcf, hmem]

/-- Uncached read of a disallowed name on a constrained `LazyObject`:
AttributeError naming the attribute and the allow-list. -/
lemma getattr_reject (k : Nat) (d : Dict) (name : String) (la : List String)
    (hmiss : dictFind d name = none)
    (hca : dictFind d "constrained_attrs" = some (.strList la))
    (hmem : name ∉ la) :
    getattrLazy (k + 2) d name = .attrError (attrResolutionMsg name la) := by
  simp [getattrLazy, hmiss, hca, hmem]

/-- Every successful attribute read leaves the returned value cached: either
the read hit the cache, or `__getattr__` stored the computed value before
returning it. -/
lemma getattr_ok_cached (fuel : Nat) (d : Dict) (name : String) (v : Value)
    (d2 : Dict) (h : getattrLazy fuel d name = .ok v d2) :
    dictFind d2 name = some v := by
  cases fuel with
  | zero => simp [getattrLazy] at h
  | succ k =>
    rw [getattrLazy] at h
    split at h
    · rename_i w hw
      obtain ⟨rfl, rfl⟩ : w = v ∧ d = d2 := by
        cases h; exact ⟨rfl, rfl⟩
      exact hw
    · rename_i hmiss
      split at h
      · rename_i ca d1 hca
        split at h
        · -- constrained_attrs is None: compute branch
          split at h
          · rename_i f d3 hcf
            obtain ⟨rfl, rfl⟩ : f name = v ∧ dictSet d3 name (f name) = d2 := by
              cases h; exact ⟨rfl, rfl⟩
            simp [dictFind_dictSet]
          · simp at h
          · rename_i e hne hok hcf
            cases e <;> simp_all
        · -- constrained_attrs is a list
          split at h
          · split at h
            · rename_i f d3 hcf
              obtain ⟨rfl, rfl⟩ :
                  f name = v ∧ dictSet d3 name (f name) = d2 := by
                cases h; exact ⟨rfl, rfl⟩
              simp [dictFind_dictSet]
            · simp at h
            · rename_i e hne hok hcf
              cases e <;> simp_all
          · simp at h
        · simp at h
      · rename_i e hok hca
        cases e <;> simp_all

/-- The iteration loop on a constrained `LazyObject` whose dictionary holds a
callable `compute_function` and a list `constrained_attrs`: it yields one
(name, value) pair per requested name, in order, each value cached in the
final dictionary, and never drops an existing entry. -/
lemma iterLoop_ok (k : Nat) (l : List String) :
    ∀ (d : Dict) (f : String → Value) (la : List String),
    dictFind d "compute_function" = some (.func f) →
    dictFind d "constrained_attrs" = some (.strList la) →
    (∀ a ∈ l, a ∈ la) →
    ∃ pairs d2, iterLoop (k + 2) d l = .ok pairs d2 ∧
      pairs.map Prod.fst = l ∧
      (∀ p ∈ pairs, dictFind d2 p.1 = some p.2) ∧
      (∀ name w, dictFind d name = some w → dictFind d2 name = some w) := by
  induction l with
  | nil =>
    intro d f la hcf hca hsub
    exact ⟨[], d, rfl, rfl, by simp, fun _ _ h => h⟩
  | cons a rest ih =>
    intro d f la hcf hca hsub
    have hmem : a ∈ la := hsub a (List.mem_cons_self a rest)
    have hsubr : ∀ b ∈ rest, b ∈ la :=
      fun b hb => hsub b (List.mem_cons_of_mem a hb)
    cases hv : dictFind d a with
    | some v =>
      have hstep : getattrLazy (k + 2) d a = .ok v d :=
        getattr_hit (k + 1) d a v hv
      obtain ⟨pairs, d2, hloop, hmap, hpairs, hmono⟩ := ih d f la hcf hca hsubr
      refine ⟨(a, v) :: pairs, d2, ?_, by simp [hmap], ?_, hmono⟩
      · simp [iterLoop, hstep, hloop]
      · intro p hp
        rcases List.mem_cons.mp hp with rfl | hp
        · exact hmono a v hv
        · exact hpairs p hp
    | none =>
      have hstep := getattr_compute k d a la f hv hca hcf hmem
      have hmono1 : ∀ name w, dictFind d name = some w →
          dictFind (dictSet d a (f a)) name = some w := by
        intro name w h
        rw [dictFind_dictSet]
        split
        · rename_i heq
          rw [← heq] at h
          rw [hv] at h
          cases h
        · exact h
      obtain ⟨pairs, d2, hloop, hmap, hpairs, hmono⟩ :=
        ih (dictSet d a (f a)) f la (hmono1 _ _ hcf) (hmono1 _ _ hca) hsubr
      refine ⟨(a, f a) :: pairs, d2, ?_, by simp [hmap], ?_,
        fun n w h => hmono n w (hmono1 n w h)⟩
      · simp [iterLoop, hstep, hloop]
      · intro p hp
        rcases List.mem_cons.mp hp with rfl | hp
        · exact hmono a (f a) (by rw [dictFind_dictSet]; simp)
        · exact hpairs p hp

/- Claim theorems. -/

/-- C1: the claim says that for a LazyObject constructed with only a compute
function, reading any uncached attribute computes `compute_function(name)`,
caches it and returns it (so reading `.hello` gives the string
"hello computed").  The code does not do this: `lazy_init` never assigns the
defaulted parameter `constrained_attrs`, so `__getattr__` reads an attribute
that does not exist and recurses on itself; the read ends in RecursionError
at every recursion limit, although construction itself succeeds. -/
theorem c1_unconstrained_read_recursion :
    (lazy_init_wrapper lazyObjectInitSpec [] []
      [("compute_function", .func helloCompute)]).2 = none ∧
    ∀ fuel : Nat,
      getattrLazy fuel unconstrainedDict "hello" = .recursionError :=
  ⟨rfl, fun fuel =>
    getattr_missing_ca_missing fuel unconstrainedDict "hello" rfl rfl⟩

/-- C2: once an attribute name has an entry in the cache, every subsequent
read returns that cached value and does not invoke the compute function
again.  For `LazyObject`: a cached read returns the entry and leaves the
dictionary unchanged, and any successful read leaves a state whose re-read
returns the same value and changes nothing.  For `lazy_property`: when the
private slot `_name` is present, `fget` returns it unchanged for every
compute function `g`, so the result cannot involve a call of `g`. -/
theorem c2_cached_reads_stable :
    (∀ (k : Nat) (d : Dict) (name : String) (v : Value),
        dictFind d name = some v → getattrLazy (k + 1) d name = .ok v d) ∧
    (∀ (k : Nat) (d : Dict) (name : String) (v : Value) (d2 : Dict),
        getattrLazy (k + 1) d name = .ok v d2 →
        getattrLazy (k + 1) d2 name = .ok v d2) ∧
    (∀ (name : String) (g : Dict → Value) (d : Dict) (v : Value),
        dictFind d ("_" ++ name) = some v →
        lazy_property_fget name g d = (v, d)) :=
  ⟨fun k d name v h => getattr_hit k d name v h,
   fun k d name v d2 h =>
     getattr_hit k d2 name v (getattr_ok_cached (k + 1) d name v d2 h),
   fun name g d v h => by simp [lazy_property_fget, h]⟩

/-- Witness for C2 at concrete inputs: a cached read, a read after a
computing read, and a cached `lazy_property` slot read under a compute
function returning a different value. -/
theorem c2_cached_reads_stable_witness :
    getattrLazy 1 [("x", Value.int 5)] "x"
      = .ok (Value.int 5) [("x", Value.int 5)] ∧
    getattrLazy 2 (dictSet lenObjDict "bcd" (Value.int 3)) "bcd"
      = .ok (Value.int 3) (dictSet lenObjDict "bcd" (Value.int 3)) ∧
    lazy_property_fget "bar" (fun _ => Value.int 9) [("_bar", Value.int 7)]
      = (Value.int 7, [("_bar", Value.int 7)]) :=
  ⟨c2_cached_reads_stable.1 0 [("x", Value.int 5)] "x" (Value.int 5) rfl,
   c2_cached_reads_stable.2.1 1 lenObjDict "bcd" (Value.int 3)
     (dictSet lenObjDict "bcd" (Value.int 3)) rfl,
   c2_cached_reads_stable.2.2 "bar" (fun _ => Value.int 9)
     [("_bar", Value.int 7)] (Value.int 7) rfl⟩

/-- C3: iterating a LazyObject whose `constrained_attrs` is None raises
TypeError; iterating one whose `constrained_attrs` is a list yields exactly
one (name, value) pair per name, in declaration order, each value being the
cached value; with `compute_function=len` and allow-list ["a", "bcd"] the
pairs are ("a", 1) and ("bcd", 3) in that order. -/
theorem c3_iteration_contract :
    (∀ (k : Nat) (d : Dict),
        dictFind d "constrained_attrs" = some Value.pyNone →
        iterLazy (k + 1) d = .typeError iterTypeErrorMsg) ∧
    (∀ (k : Nat) (d : Dict) (f : String → Value) (la : List String),
        dictFind d "compute_function" = some (.func f) →
        dictFind d "constrained_attrs" = some (.strList la) →
        ∃ pairs d2, iterLazy (k + 2) d = .ok pairs d2 ∧
          pairs.map Prod.fst = la ∧
          ∀ p ∈ pairs, dictFind d2 p.1 = some p.2) ∧
    iterLazy 2 lenObjDict =
      .ok [("a", Value.int 1), ("bcd", Value.int 3)]
        [("compute_function", Value.func lenCompute),
         ("constrained_attrs", Value.strList ["a", "bcd"]),
         ("a", Value.int 1), ("bcd", Value.int 3)] := by
  refine ⟨?_, ?_, ?_⟩
  · intro k d h
    have hhit := getattr_hit k d "constrained_attrs" Value.pyNone h
    simp [iterLazy, hhit]
  · intro k d f la hcf hca
    have hhit := getattr_hit (k + 1) d "constrained_attrs" (Value.strList la) hca
    obtain ⟨pairs, d2, hloop, hmap, hpairs, _⟩ :=
      iterLoop_ok k la d f la hcf hca (fun a ha => ha)
    exact ⟨pairs, d2, by simp [iterLazy, hhit, hloop], hmap, hpairs⟩
  · rfl

/-- Witness for C3: the explicit-None object raises the TypeError and the
constrained len-object iterates with cached pair values. -/
theorem c3_iteration_contract_witness :
    iterLazy 1 noneCaDict = .typeError iterTypeErrorMsg ∧
    ∃ pairs d2, iterLazy 2 lenObjDict = .ok pairs d2 ∧
      pairs.map Prod.fst = ["a", "bcd"] ∧
      ∀ p ∈ pairs, dictFind d2 p.1 = some p.2 :=
  ⟨c3_iteration_contract.1 0 noneCaDict rfl,
   c3_iteration_contract.2.1 0 lenObjDict lenCompute ["a", "bcd"] rfl rfl⟩

/-- C4: on a LazyObject with a non-None allow-list, an uncached read of a
name outside the list raises AttributeError whose message names the
requested attribute and the full allowed list (both are interpolated into
`attrResolutionMsg`); an uncached read of a listed name computes the value,
caches it and returns it. -/
theorem c4_constrained_access :
    ∀ (k : Nat) (d : Dict) (name : String) (la : List String)
      (f : String → Value),
    dictFind d name = none →
    dictFind d "constrained_attrs" = some (.strList la) →
    dictFind d "compute_function" = some (.func f) →
    (name ∉ la →
      getattrLazy (k + 2) d name = .attrError (attrResolutionMsg name la)) ∧
    (name ∈ la →
      getattrLazy (k + 2) d name = .ok (f name) (dictSet d name (f name))) :=
  fun k d name la f hmiss hca hcf =>
    ⟨fun hnot => getattr_reject k d name la hmiss hca hnot,
     fun hmem => getattr_compute k d name la f hmiss hca hcf hmem⟩

/-- Witness for C4 on the len-object: reading "xyz" raises the
AttributeError, reading "bcd" computes and caches 3. -/
theorem c4_constrained_access_witness :
    getattrLazy 2 lenObjDict "xyz"
      = .attrError (attrResolutionMsg "xyz" ["a", "bcd"]) ∧
    getattrLazy 2 lenObjDict "bcd"
      = .ok (Value.int 3) (dictSet lenObjDict "bcd" (Value.int 3)) :=
  ⟨(c4_constrained_access 0 lenObjDict "xyz" ["a", "bcd"] lenCompute
      rfl rfl rfl).1 (by decide),
   (c4_constrained_access 0 lenObjDict "bcd" ["a", "bcd"] lenCompute
      rfl rfl rfl).2 (by decide)⟩

/-- C5 counterexample: the claim says a call with a missing required
parameter completes without error; in the code the wrapper ends with
`func(self, *args, **kwargs)` and that delegated call raises a TypeError for
the missing argument.  Constructor `(self, a, b)` called with the single
positional argument 1 raises. -/
theorem c5_missing_required_counterexample :
    (lazy_init_wrapper specSelfAB [] [Value.int 1] []).2
      = some missingRequiredMsg := rfl

/-- C5 amended: the unresolved required parameter is indeed not set as an
instance attribute, but the call does not complete silently: the delegated
original constructor raises a TypeError for the missing argument, and the
attribute assignments already made remain on the instance. -/
theorem c5_missing_required_amended : ∀ (v : Value),
    lazy_init_wrapper specSelfAB [] [v] []
      = ([("a", v)], some missingRequiredMsg) :=
  fun _ => rfl

/-- Witness for C5 amended at the concrete value 1. -/
theorem c5_missing_required_amended_witness :
    lazy_init_wrapper specSelfAB [] [Value.int 1] []
      = ([("a", Value.int 1)], some missingRequiredMsg) :=
  c5_missing_required_amended (Value.int 1)

/-- C6: the claim says a defaulted parameter supplied by positional overflow
is bound as an attribute; the code pairs the defaulted names with
`args[required_args_len:]` although the runtime `args` excludes `self`, so
for `(self, a, b=3)` called with positional (1, 2) the attribute b is never
set (while a is), even though the delegated call succeeds and binds b to 2
inside the constructor. -/
theorem c6_positional_default_not_bound :
    lazy_init_wrapper specSelfAB3 [] [Value.int 1, Value.int 2] []
      = ([("a", Value.int 1)], none) ∧
    dictFind
      (lazy_init_wrapper specSelfAB3 [] [Value.int 1, Value.int 2] []).1 "b"
      = none :=
  ⟨rfl, rfl⟩

/-- C7: the test constructor `(self, a, b=3, **kwargs)` called with the
positional argument 1, keyword b=2 and extra keyword c=4 produces a == 1,
b == 2 and c == 4, the extra keyword being bound under its given name. -/
theorem c7_binding_with_kwargs :
    lazy_init_wrapper specTestFoo [] [Value.int 1]
        [("b", Value.int 2), ("c", Value.int 4)]
      = ([("a", Value.int 1), ("b", Value.int 2), ("c", Value.int 4)], none) ∧
    dictFind (lazy_init_wrapper specTestFoo [] [Value.int 1]
        [("b", Value.int 2), ("c", Value.int 4)]).1 "a" = some (Value.int 1) ∧
    dictFind (lazy_init_wrapper specTestFoo [] [Value.int 1]
        [("b", Value.int 2), ("c", Value.int 4)]).1 "b" = some (Value.int 2) ∧
    dictFind (lazy_init_wrapper specTestFoo [] [Value.int 1]
        [("b", Value.int 2), ("c", Value.int 4)]).1 "c" = some (Value.int 4) :=
  ⟨rfl, rfl, rfl, rfl⟩

/-- C8: `lazy_init` fails at decoration time, before any call, exactly when
the constructor declares a variable-positional parameter; constructors
without one are wrapped without error. -/
theorem c8_varargs_rejected_at_decoration :
    ∀ (specs : ArgSpec),
    (specs.varargs = none → lazy_init_decorate specs = Except.ok ()) ∧
    (specs.varargs ≠ none →
      lazy_init_decorate specs = Except.error assertVarargsMsg) := by
  intro specs
  constructor <;> intro h <;> simp [lazy_init_decorate, h]

/-- Witness for C8: a plain constructor is wrapped, one with varargs is
rejected with the assertion message. -/
theorem c8_varargs_rejected_at_decoration_witness :
    lazy_init_decorate specSelfAB = Except.ok () ∧
    lazy_init_decorate ⟨["self", "a"], some "args", none, []⟩
      = Except.error assertVarargsMsg :=
  ⟨(c8_varargs_rejected_at_decoration specSelfAB).1 rfl,
   (c8_varargs_rejected_at_decoration
      ⟨["self", "a"], some "args", none, []⟩).2 (by simp)⟩

/-- C9 counterexample: the claim says `__dir__` returns exactly the two fixed
names when `constrained_attrs` is None; on an object carrying an explicit
None it returns the empty list instead, because the conditional expression
in the source governs the whole concatenation. -/
theorem c9_dir_none_counterexample :
    dirLazy 1 noneCaDict = .ok [] ∧
    dirLazy 1 noneCaDict ≠ .ok ["compute_function", "constrained_attrs"] :=
  ⟨rfl, by decide⟩

/-- C9 amended: `__dir__` returns the two fixed names concatenated with the
allow-list when `constrained_attrs` is a list, and returns the empty list
when `constrained_attrs` is None (the precedence of the conditional
expression drops the two fixed names in that branch). -/
theorem c9_dir_amended :
    (∀ (k : Nat) (d : Dict) (l : List String),
        dictFind d "constrained_attrs" = some (.strList l) →
        dirLazy (k + 1) d
          = .ok (["compute_function", "constrained_attrs"] ++ l)) ∧
    (∀ (k : Nat) (d : Dict),
        dictFind d "constrained_attrs" = some Value.pyNone →
        dirLazy (k + 1) d = .ok []) := by
  constructor
  · intro k d l h
    have hhit := getattr_hit k d "constrained_attrs" (Value.strList l) h
    simp [dirLazy, hhit]
  · intro k d h
    have hhit := getattr_hit k d "constrained_attrs" Value.pyNone h
    simp [dirLazy, hhit]

/-- Witness for C9 amended on the constrained and explicit-None objects. -/
theorem c9_dir_amended_witness :
    dirLazy 1 lenObjDict
      = .ok (["compute_function", "constrained_attrs"] ++ ["a", "bcd"]) ∧
    dirLazy 1 noneCaDict = .ok [] :=
  ⟨c9_dir_amended.1 0 lenObjDict ["a", "bcd"] rfl,
   c9_dir_amended.2 0 noneCaDict rfl⟩

/-- C10: the wrapper performs all instance-attribute assignments before the
delegated constructor call, so the resulting attribute state is exactly the
assignment phase whatever the delegated call does, and when that call raises
(missing required argument b of `(self, a, b)` called with 1) the attribute
a == 1 already assigned remains visible. -/
theorem c10_assignments_survive_call_failure :
    (∀ (specs : ArgSpec) (d0 : Dict) (args : List Value)
        (kwargs : List (String × Value)),
        (lazy_init_wrapper specs d0 args kwargs).1
          = lazy_init_setattrs specs d0 args kwargs) ∧
    (lazy_init_wrapper specSelfAB [] [Value.int 1] []).2.isSome = true ∧
    dictFind (lazy_init_wrapper specSelfAB [] [Value.int 1] []).1 "a"
      = some (Value.int 1) :=
  ⟨fun _ _ _ _ => rfl, rfl, rfl⟩

/-- Witness for C10 applying the general part at a concrete input. -/
theorem c10_assignments_survive_call_failure_witness :
    (lazy_init_wrapper specTestFoo [] [] []).1
      = lazy_init_setattrs specTestFoo [] [] [] :=
  c10_assignments_survive_call_failure.1 specTestFoo [] [] []

end LazyObjects
